import Mathlib

set_option maxRecDepth 100000

/-!
# Shallow embedding of the Wiseled_LBR illumination firmware core

This file embeds, in Lean, the safety-supervised light-control subsystem of
the firmware: the LED driver (`app_led_driver.c`), the system coordinator
(`app_sys_coordinator.c`), the command router (`app_comms_handler.c`) and the
PWM actuation layer (`val_pwm.c`), together with the constants from
`val_status.h` / the driver.

Modelling conventions:
* C `uint8_t` values are modelled as `Nat` (casts that truncate are noted
  where they occur in the source).
* Sensor readings (`float` in C) are modelled as `ℚ`; only order comparisons
  against exactly-representable constant thresholds occur, so the comparison
  structure is preserved.
* The four file-scope static arrays of `app_led_driver.c`
  (`current_intensities`, `light_sensor_data`, `light_alarms`) plus the PWM
  compare registers of `val_pwm.c` form one record `FirmwareState`; arrays
  are `Nat`-indexed functions (the C code only ever touches indices 0..2).
* The analog layer (`val_analog.c`) reads the DMA-filled ADC buffer and
  converts it to per-channel current/temperature values; the converted
  readings the hardware delivers at a given call are the model's
  environment parameter `fresh : Nat → LightSensorData`.
-/

/-- `VAL_Status` from `val_status.h`. -/
inductive VAL_Status where
  | VAL_OK
  | VAL_ERROR
  | VAL_TIMEOUT
  | VAL_BUSY
  | VAL_PARAM
deriving DecidableEq, Repr

open VAL_Status

/-- `ErrorType_t` member `ERROR_OVER_CURRENT` from
`Drivers/VAL/Inc/val_status.h` (value 1). -/
def ERROR_OVER_CURRENT : Nat := 1

/-- `ErrorType_t` member `ERROR_OVER_TEMPERATURE` from
`Drivers/VAL/Inc/val_status.h` (value 2). -/
def ERROR_OVER_TEMPERATURE : Nat := 2

/-- `ErrorType_t` member `ERROR_SYSTEM` from
`Drivers/VAL/Inc/val_status.h` (value 3). -/
def ERROR_SYSTEM : Nat := 3

/-- `NUM_LIGHT_SOURCES` from `app_led_driver.c`. -/
def NUM_LIGHT_SOURCES : Nat := 3

/-- `LIGHT_CURRENT_MAX` from `app_led_driver.c` (25.0f). -/
def LIGHT_CURRENT_MAX : ℚ := 25

/-- `LIGHT_CURRENT_MIN` from `app_led_driver.c` (0.0f). -/
def LIGHT_CURRENT_MIN : ℚ := 0

/-- `LIGHT_TEMP_MAX` from `app_led_driver.c` (85.0f). -/
def LIGHT_TEMP_MAX : ℚ := 85

/-- `LIGHT_TEMP_MIN` from `app_led_driver.c` (0.0f). -/
def LIGHT_TEMP_MIN : ℚ := 0

/-- `PWM_CHANNEL_COUNT` from `val_pwm.c`. -/
def PWM_CHANNEL_COUNT : Nat := 3

/-- `PWM_MAX_INTENSITY` from `val_pwm.c`. -/
def PWM_MAX_INTENSITY : Nat := 100

/-- `LightSensorData_t` from `app_led_driver.h`. -/
structure LightSensorData where
  light_id : Nat
  current : ℚ
  temperature : ℚ
deriving DecidableEq, Repr

/-- Pointwise array update helper for the `Nat`-indexed array model. -/
def upd {α : Type} (f : Nat → α) (i : Nat) (v : α) : Nat → α :=
  fun j => if j = i then v else f j

/-- The file-scope statics of `app_led_driver.c` plus the PWM compare
registers of `val_pwm.c` (field `pwmDuty`, the duty last commanded through
`__HAL_TIM_SET_COMPARE` per 0-based channel index). -/
structure FirmwareState where
  current_intensities : Nat → Nat
  light_sensor_data : Nat → LightSensorData
  light_alarms : Nat → Nat
  pwmDuty : Nat → Nat

/-- `VAL_PWM_SetIntensity` from `val_pwm.c`: rejects an out-of-range channel
with `VAL_PARAM`; clamps an intensity above `PWM_MAX_INTENSITY` down to
`PWM_MAX_INTENSITY`; writes the duty and returns `VAL_OK`. -/
def VAL_PWM_SetIntensity (channel intensity : Nat) (st : FirmwareState) :
    VAL_Status × FirmwareState :=
  if channel < 1 ∨ channel > PWM_CHANNEL_COUNT then
    (VAL_PARAM, st)
  else
    let intensity := if intensity > PWM_MAX_INTENSITY then PWM_MAX_INTENSITY else intensity
    (VAL_OK, { st with pwmDuty := upd st.pwmDuty (channel - 1) intensity })

/-- One iteration (channel index `i`) of the loop in
`LED_Driver_CheckAlarmConditions` of `app_led_driver.c`: if the channel's
current is out of `[LIGHT_CURRENT_MIN, LIGHT_CURRENT_MAX]`, store
`ERROR_OVER_CURRENT` in `light_alarms[i]`, zero `current_intensities[i]` and
command PWM channel `i+1` to 0; then, independently (the second `if` is not
an `else if`), do the same with `ERROR_OVER_TEMPERATURE` for a temperature
out of `[LIGHT_TEMP_MIN, LIGHT_TEMP_MAX]`. -/
def LED_Driver_CheckAlarmStep (st : FirmwareState) (i : Nat) : FirmwareState :=
  let st :=
    if (st.light_sensor_data i).current > LIGHT_CURRENT_MAX ∨
       (st.light_sensor_data i).current < LIGHT_CURRENT_MIN then
      let st := { st with
        light_alarms := upd st.light_alarms i ERROR_OVER_CURRENT
        current_intensities := upd st.current_intensities i 0 }
      (VAL_PWM_SetIntensity (i + 1) 0 st).2
    else st
  if (st.light_sensor_data i).temperature > LIGHT_TEMP_MAX ∨
     (st.light_sensor_data i).temperature < LIGHT_TEMP_MIN then
    let st := { st with
      light_alarms := upd st.light_alarms i ERROR_OVER_TEMPERATURE
      current_intensities := upd st.current_intensities i 0 }
    (VAL_PWM_SetIntensity (i + 1) 0 st).2
  else st

/-- `LED_Driver_CheckAlarmConditions` from `app_led_driver.c`: the loop
`for i in 0..NUM_LIGHT_SOURCES` of `LED_Driver_CheckAlarmStep`. -/
def LED_Driver_CheckAlarmConditions (st : FirmwareState) : FirmwareState :=
  (List.range NUM_LIGHT_SOURCES).foldl LED_Driver_CheckAlarmStep st

/-- `VAL_Analog_GetAllSensorData` from `Drivers/VAL/Src/val_analog.c`: for
each light 1..3 it calls `VAL_Analog_GetSensorData(i + 1, &sensorData[i])`,
which converts the DMA-filled ADC buffer and whose only failure is the
`VAL_PARAM` guard on id/NULL — impossible for these arguments — so the
call always writes all three entries and returns `VAL_OK`. The converted
readings the ADC buffer holds at the time of the call are the environment
parameter `fresh`. -/
def VAL_Analog_GetAllSensorData (fresh : Nat → LightSensorData)
    (st : FirmwareState) : VAL_Status × FirmwareState :=
  (VAL_OK, { st with light_sensor_data := fresh })

/-- `LED_Driver_UpdateSensorReadings` from `app_led_driver.c`: performs the
analog read, then runs `LED_Driver_CheckAlarmConditions`, and returns the
read's status (always `VAL_OK`, see `VAL_Analog_GetAllSensorData`). -/
def LED_Driver_UpdateSensorReadings (fresh : Nat → LightSensorData)
    (st : FirmwareState) : VAL_Status × FirmwareState :=
  let (status, st) := VAL_Analog_GetAllSensorData fresh st
  let st := LED_Driver_CheckAlarmConditions st
  (status, st)

/-- `LED_Driver_ValidateLightId` from `app_led_driver.c`. -/
def LED_Driver_ValidateLightId (light_id : Nat) : VAL_Status :=
  if light_id < 1 ∨ light_id > NUM_LIGHT_SOURCES then VAL_ERROR else VAL_OK

/-- `LED_Driver_SetIntensity` from `app_led_driver.c`: validate id, reject
`intensity > 100`, reject when `light_alarms[id-1]` is nonzero, refresh the
sensors (forwarding a non-OK read status, which cannot occur here), store
the intensity, re-run the alarm check, and finally command the PWM with
the requested intensity. -/
def LED_Driver_SetIntensity (light_id intensity : Nat)
    (fresh : Nat → LightSensorData) (st : FirmwareState) :
    VAL_Status × FirmwareState :=
  let status := LED_Driver_ValidateLightId light_id
  if status ≠ VAL_OK then (status, st)
  else if intensity > 100 then (VAL_ERROR, st)
  else if st.light_alarms (light_id - 1) ≠ 0 then (VAL_ERROR, st)
  else
    let (status, st) := LED_Driver_UpdateSensorReadings fresh st
    if status ≠ VAL_OK then (status, st)
    else
      let st := { st with
        current_intensities := upd st.current_intensities (light_id - 1) intensity }
      let st := LED_Driver_CheckAlarmConditions st
      VAL_PWM_SetIntensity light_id intensity st

/-- One iteration (channel index `i`) of the loop in
`LED_Driver_SetAllIntensities`: channels with a nonzero alarm byte are
skipped; otherwise the intensity is stored and the PWM commanded, a PWM
failure turning the aggregate status to `VAL_ERROR` without stopping the
loop. -/
def LED_Driver_SetAllStep (intensities : Nat → Nat)
    (acc : VAL_Status × FirmwareState) (i : Nat) : VAL_Status × FirmwareState :=
  let (status, st) := acc
  if st.light_alarms i ≠ 0 then (status, st)
  else
    let st := { st with
      current_intensities := upd st.current_intensities i (intensities i) }
    let (light_status, st) := VAL_PWM_SetIntensity (i + 1) (intensities i) st
    if light_status ≠ VAL_OK then (VAL_ERROR, st) else (status, st)

/-- `LED_Driver_SetAllIntensities` from `app_led_driver.c`: refresh sensors
(forwarding a non-OK read status, which cannot occur here), then
best-effort per-channel actuation (no range validation of the values),
then a final alarm check. -/
def LED_Driver_SetAllIntensities (intensities : Nat → Nat)
    (fresh : Nat → LightSensorData) (st : FirmwareState) :
    VAL_Status × FirmwareState :=
  let (status, st) := LED_Driver_UpdateSensorReadings fresh st
  if status ≠ VAL_OK then (status, st)
  else
    let (status, st) :=
      (List.range NUM_LIGHT_SOURCES).foldl (LED_Driver_SetAllStep intensities) (VAL_OK, st)
    let st := LED_Driver_CheckAlarmConditions st
    (status, st)

/-- `LED_Driver_GetIntensity` from `app_led_driver.c`: pure read of the
stored intensity; `none` models the untouched out-parameter on a bad id. -/
def LED_Driver_GetIntensity (light_id : Nat) (st : FirmwareState) :
    VAL_Status × Option Nat :=
  if light_id < 1 ∨ light_id > NUM_LIGHT_SOURCES then (VAL_ERROR, none)
  else (VAL_OK, some (st.current_intensities (light_id - 1)))

/-- `LED_Driver_GetAllIntensities` from `app_led_driver.c`: a 3-entry
`memcpy` out of `current_intensities`; always `VAL_OK`. -/
def LED_Driver_GetAllIntensities (st : FirmwareState) : VAL_Status × (Nat → Nat) :=
  (VAL_OK, st.current_intensities)

/-- `LED_Driver_GetSensorData` from `app_led_driver.c`: validate the id,
refresh the sensors (a non-OK status — impossible here — would be
forwarded with the out-parameter untouched, modelled `none`), then copy
the channel's snapshot. -/
def LED_Driver_GetSensorData (light_id : Nat)
    (fresh : Nat → LightSensorData) (st : FirmwareState) :
    VAL_Status × Option LightSensorData × FirmwareState :=
  let status := LED_Driver_ValidateLightId light_id
  if status ≠ VAL_OK then (status, none, st)
  else
    let (status, st) := LED_Driver_UpdateSensorReadings fresh st
    if status ≠ VAL_OK then (status, none, st)
    else (VAL_OK, some (st.light_sensor_data (light_id - 1)), st)

/-- `LED_Driver_GetAllSensorData` from `app_led_driver.c`: refresh the
sensors (forwarding a non-OK status, which cannot occur here), then copy
all three snapshots. -/
def LED_Driver_GetAllSensorData (fresh : Nat → LightSensorData)
    (st : FirmwareState) :
    VAL_Status × Option (Nat → LightSensorData) × FirmwareState :=
  let (status, st) := LED_Driver_UpdateSensorReadings fresh st
  if status ≠ VAL_OK then (status, none, st)
  else (VAL_OK, some st.light_sensor_data, st)

/-- `LED_Driver_ClearAlarm` from `app_led_driver.c`: validate the id,
refresh the sensors (forwarding a non-OK status, which cannot occur
here), fail with `VAL_ERROR` when the
channel's current or temperature is still outside its bounds, otherwise
zero the alarm byte. -/
def LED_Driver_ClearAlarm (light_id : Nat)
    (fresh : Nat → LightSensorData) (st : FirmwareState) :
    VAL_Status × FirmwareState :=
  let status := LED_Driver_ValidateLightId light_id
  if status ≠ VAL_OK then (status, st)
  else
    let (status, st) := LED_Driver_UpdateSensorReadings fresh st
    if status ≠ VAL_OK then (status, st)
    else if (st.light_sensor_data (light_id - 1)).current > LIGHT_CURRENT_MAX ∨
            (st.light_sensor_data (light_id - 1)).temperature > LIGHT_TEMP_MAX ∨
            (st.light_sensor_data (light_id - 1)).current < LIGHT_CURRENT_MIN ∨
            (st.light_sensor_data (light_id - 1)).temperature < LIGHT_TEMP_MIN then
      (VAL_ERROR, st)
    else
      (VAL_OK, { st with light_alarms := upd st.light_alarms (light_id - 1) 0 })

/-- `LED_Driver_GetAlarmStatus` from `app_led_driver.c`: a 3-entry `memcpy`
out of `light_alarms`; always `VAL_OK` (the NULL-pointer guard has no
counterpart in the model). -/
def LED_Driver_GetAlarmStatus (st : FirmwareState) : VAL_Status × (Nat → Nat) :=
  (VAL_OK, st.light_alarms)

/-!
## System coordinator (`app_sys_coordinator.c`)

The coordinator keeps its own file-scope caches (`current_intensities`,
`current_sensor_data`, `light_alarms`, `previous_light_alarms`); the fields
below carry a `coord_` disambiguation prefix where the C static shares a
name with a driver static.
-/

/-- The file-scope statics of `app_sys_coordinator.c`, together with the
driver/PWM state they act on. -/
structure CoordState where
  fw : FirmwareState
  coord_intensities : Nat → Nat
  coord_sensor_data : Nat → LightSensorData
  coord_alarms : Nat → Nat
  previous_light_alarms : Nat → Nat

/-- `SYS_Coordinator_GetLightIntensity` from `app_sys_coordinator.c`: pure
read of the coordinator's intensity cache. -/
def SYS_Coordinator_GetLightIntensity (light_id : Nat) (cs : CoordState) :
    VAL_Status × Option Nat :=
  if light_id < 1 ∨ light_id > 3 then (VAL_ERROR, none)
  else (VAL_OK, some (cs.coord_intensities (light_id - 1)))

/-- `SYS_Coordinator_GetAllLightIntensities` from `app_sys_coordinator.c`:
3-entry `memcpy` out of the coordinator's intensity cache. -/
def SYS_Coordinator_GetAllLightIntensities (cs : CoordState) :
    VAL_Status × (Nat → Nat) :=
  (VAL_OK, cs.coord_intensities)

/-- `SYS_Coordinator_SetLightIntensity` from `app_sys_coordinator.c`:
validate id and intensity, delegate to `LED_Driver_SetIntensity`, and on
`VAL_OK` update the coordinator's intensity cache. -/
def SYS_Coordinator_SetLightIntensity (light_id intensity : Nat)
    (fresh : Nat → LightSensorData) (cs : CoordState) :
    VAL_Status × CoordState :=
  if light_id < 1 ∨ light_id > 3 then (VAL_ERROR, cs)
  else if intensity > 100 then (VAL_ERROR, cs)
  else
    let (status, fw) := LED_Driver_SetIntensity light_id intensity fresh cs.fw
    let cs := { cs with fw := fw }
    if status = VAL_OK then
      (status, { cs with
        coord_intensities := upd cs.coord_intensities (light_id - 1) intensity })
    else (status, cs)

/-- `SYS_Coordinator_SetAllLightIntensities` from `app_sys_coordinator.c`:
delegate to `LED_Driver_SetAllIntensities` (no range validation anywhere on
this path), and on `VAL_OK` copy the requested values into the
coordinator's intensity cache. -/
def SYS_Coordinator_SetAllLightIntensities (intensities : Nat → Nat)
    (fresh : Nat → LightSensorData) (cs : CoordState) :
    VAL_Status × CoordState :=
  let (status, fw) := LED_Driver_SetAllIntensities intensities fresh cs.fw
  let cs := { cs with fw := fw }
  if status = VAL_OK then
    (status, { cs with coord_intensities := intensities })
  else (status, cs)

/-- `SYS_Coordinator_GetLightSensorData` from `app_sys_coordinator.c`:
validate id, delegate to `LED_Driver_GetSensorData` (which performs a fresh
hardware read), and on success update the coordinator's sensor cache. -/
def SYS_Coordinator_GetLightSensorData (light_id : Nat)
    (fresh : Nat → LightSensorData) (cs : CoordState) :
    VAL_Status × Option LightSensorData × CoordState :=
  if light_id < 1 ∨ light_id > 3 then (VAL_ERROR, none, cs)
  else
    let (status, data, fw) := LED_Driver_GetSensorData light_id fresh cs.fw
    let cs := { cs with fw := fw }
    match status, data with
    | VAL_OK, some d =>
        (VAL_OK, some d,
          { cs with coord_sensor_data := upd cs.coord_sensor_data (light_id - 1) d })
    | _, _ => (status, data, cs)

/-- `SYS_Coordinator_GetAllLightSensorData` from `app_sys_coordinator.c`:
a 3-entry `memcpy` out of the coordinator's `current_sensor_data` cache;
it performs no hardware read and always returns `VAL_OK` (the NULL-pointer
guard has no counterpart in the model). -/
def SYS_Coordinator_GetAllLightSensorData (cs : CoordState) :
    VAL_Status × (Nat → LightSensorData) × CoordState :=
  (VAL_OK, cs.coord_sensor_data, cs)

/-- `SYS_Coordinator_ClearLightAlarm` from `app_sys_coordinator.c`:
validate id and delegate to `LED_Driver_ClearAlarm`. -/
def SYS_Coordinator_ClearLightAlarm (light_id : Nat)
    (fresh : Nat → LightSensorData) (cs : CoordState) :
    VAL_Status × CoordState :=
  if light_id < 1 ∨ light_id > 3 then (VAL_ERROR, cs)
  else
    let (status, fw) := LED_Driver_ClearAlarm light_id fresh cs.fw
    (status, { cs with fw := fw })

/-- `sizeof(uint8_t *)` on the 32-bit ARM Cortex-M target this firmware is
built for (STM32L4). -/
def sizeof_uint8_t_ptr : Nat := 4

/-- `sizeof(uint8_t)`. -/
def sizeof_uint8_t : Nat := 1

/-- The byte count of the `memcpy` in `SYS_Coordinator_GetAlarmStatus` of
`app_sys_coordinator.c`: the source reads `memcpy(alarms, light_alarms,
sizeof(alarms))` where `alarms` is a `uint8_t *` parameter, so the copied
length is the size of a pointer, not of the 3-byte alarm array. -/
def SYS_Coordinator_GetAlarmStatus_copyBytes : Nat := sizeof_uint8_t_ptr

/-- The alarm-vector content `SYS_Coordinator_GetAlarmStatus` is meant to
deliver (its first `NUM_LIGHT_SOURCES` bytes; the 4-byte `memcpy` of the
source additionally reads and writes one byte past the 3-byte arrays). -/
def SYS_Coordinator_GetAlarmStatus (cs : CoordState) : VAL_Status × (Nat → Nat) :=
  (VAL_OK, cs.coord_alarms)

/-- An emitted alarm event, as handed by `SYS_Coordinator_Task` to
`COMMS_Handler_SendAlarmEvent` (light id, raw error-type byte, measured
value). -/
structure AlarmEvent where
  lightId : Nat
  errorType : Nat
  value : ℚ
deriving DecidableEq, Repr

/-- One iteration (channel index `i`) of the alarm-diff loop in
`SYS_Coordinator_Task`: when `light_alarms[i]` is nonzero and
`previous_light_alarms[i]` is zero, emit one event whose value is the
channel's cached current when the alarm byte equals 1 (the source comments
this case `ERROR_OVER_CURRENT`), the cached temperature when it equals 2
(commented `ERROR_OVER_TEMPERATURE`), and 0.0 otherwise; afterwards the
previous-alarm entry is updated unconditionally. -/
def SYS_Coordinator_AlarmDiffStep (acc : CoordState × List AlarmEvent)
    (i : Nat) : CoordState × List AlarmEvent :=
  let (cs, events) := acc
  let events :=
    if cs.coord_alarms i ≠ 0 ∧ cs.previous_light_alarms i = 0 then
      let value : ℚ :=
        if cs.coord_alarms i = 1 then (cs.coord_sensor_data i).current
        else if cs.coord_alarms i = 2 then (cs.coord_sensor_data i).temperature
        else 0
      events ++ [⟨i + 1, cs.coord_alarms i, value⟩]
    else events
  let cs := { cs with
    previous_light_alarms := upd cs.previous_light_alarms i (cs.coord_alarms i) }
  (cs, events)

/-- One iteration of the `for(;;)` loop of `SYS_Coordinator_Task` in
`app_sys_coordinator.c` (one 100 ms refresh tick): synchronize the
intensity cache, refresh and synchronize the sensor cache (the C loop only
logs a failed read, and the analog layer cannot fail here), synchronize
the alarm cache, then run the alarm-diff loop over the three channels.
Returns the new state and the alarm events emitted during the tick. -/
def SYS_Coordinator_Tick (fresh : Nat → LightSensorData)
    (cs : CoordState) : CoordState × List AlarmEvent :=
  let (_, intensities) := LED_Driver_GetAllIntensities cs.fw
  let cs := { cs with coord_intensities := intensities }
  let (_, data, fw) := LED_Driver_GetAllSensorData fresh cs.fw
  let cs := { cs with fw := fw }
  let cs :=
    match data with
    | some d => { cs with coord_sensor_data := d }
    | none => cs
  let (_, alarms) := LED_Driver_GetAlarmStatus cs.fw
  let cs := { cs with coord_alarms := alarms }
  (List.range 3).foldl SYS_Coordinator_AlarmDiffStep (cs, [])

/-- One fold step of a multi-tick run: perform the tick and append its
events to the accumulated event list. -/
def SYS_Coordinator_RunStep (acc : CoordState × List AlarmEvent)
    (fresh : Nat → LightSensorData) : CoordState × List AlarmEvent :=
  let t := SYS_Coordinator_Tick fresh acc.1
  (t.1, acc.2 ++ t.2)

/-- A run of consecutive refresh ticks: fold `SYS_Coordinator_Tick` over a
list of per-tick readings, accumulating all emitted events. -/
def SYS_Coordinator_Run (reads : List (Nat → LightSensorData))
    (cs : CoordState) : CoordState × List AlarmEvent :=
  reads.foldl SYS_Coordinator_RunStep (cs, [])

/-!
## Command router (`app_comms_handler.c`)

The byte-level JSON tokenizing (`lwjson`) is an external collaborator per
the specification; the router is embedded from the point where
`COMMS_ProcessJsonCommand` has extracted `id`, `type`, `topic`, `action`
and the `data` members from the token tree. A `JsonMsg` value holds those
extraction results for one syntactically valid JSON object; `none` fields
model keys that were absent (or not of the expected token type).
-/

/-- The `data`-object members the extraction loops of
`COMMS_ProcessJsonCommand` look for. `intensities?` is `some` exactly when
the `intensities` array yielded at least three integer elements
(`index == 3` in the source); `lights_first?` is the first element of a
`lights` array when that element is an integer. Integer values carry the
source's `(uint8_t)` casts already applied. -/
structure CmdData where
  id? : Option Nat
  intensity? : Option Nat
  intensities? : Option (Nat → Nat)
  lights_first? : Option Nat

/-- One parsed inbound JSON object: the envelope fields extracted by
`COMMS_ProcessJsonCommand` (`msgId` defaults to "unknown" in the source
when no `id` key is present) and the `data` members. -/
structure JsonMsg where
  msgId : String
  type? : Option String
  topic? : Option String
  action? : Option String
  data : CmdData

/-- The envelope-type test of `COMMS_ProcessJsonCommand`:
`strncmp(type, "cmd", type_len) == 0` compares only the first `type_len`
characters, so it accepts exactly the strings that are prefixes of
`"cmd"`. -/
def COMMS_TypeIsCmd (type : String) : Bool :=
  type.data.isPrefixOf "cmd".data

/-- One response frame, tagged by which `COMMS_Send...Response` `snprintf`
variant produced it (payload fields as in the rendered JSON). -/
inductive CommsResponse where
  | ping (msgId : String)
  | lightGetAllOk (msgId : String) (intensities : Nat → Nat)
  | lightGetOk (msgId : String) (lightId intensity : Nat)
  | lightGetError (msgId action : String)
  | setLightOk (msgId : String)
  | setLightError (msgId : String)
  | setAllOk (msgId : String)
  | setAllError (msgId : String)
  | sensorDataOk (msgId : String) (lightId : Nat) (data : LightSensorData)
  | allSensorDataOk (msgId : String) (data : Nat → LightSensorData)
  | alarmClearOk (msgId : String) (lightId : Nat)
  | alarmClearError (msgId : String) (lightId : Nat)
  | alarmStatusOk (msgId : String) (active : List (Nat × String))
  | errorResp (msgId topic action message : String)

/-- `COMMS_SendPingResponse` from `app_comms_handler.c`. -/
def COMMS_SendPingResponse (msgId : String) : CommsResponse :=
  .ping msgId

/-- `COMMS_SendLightIntensityResponse` from `app_comms_handler.c`:
`lightId == 0` requests all intensities (`SYS_Coordinator_GetAllLightIntensities`
always succeeds), `1..3` one intensity (`SYS_Coordinator_GetLightIntensity`
succeeds for these ids), anything else leaves the status at its
`VAL_ERROR` initializer and renders the error frame (with action `"get"`
since `lightId ≠ 0`). -/
def COMMS_SendLightIntensityResponse (msgId : String) (lightId : Nat)
    (cs : CoordState) : CommsResponse :=
  if lightId = 0 then
    .lightGetAllOk msgId (SYS_Coordinator_GetAllLightIntensities cs).2
  else if 1 ≤ lightId ∧ lightId ≤ 3 then
    match SYS_Coordinator_GetLightIntensity lightId cs with
    | (VAL_OK, some v) => .lightGetOk msgId lightId v
    | _ => .lightGetError msgId "get"
  else
    .lightGetError msgId "get"

/-- `COMMS_SendSetLightResponse` from `app_comms_handler.c`. -/
def COMMS_SendSetLightResponse (msgId : String) (status : VAL_Status) :
    CommsResponse :=
  if status = VAL_OK then .setLightOk msgId else .setLightError msgId

/-- `COMMS_SendSetAllLightsResponse` from `app_comms_handler.c`. -/
def COMMS_SendSetAllLightsResponse (msgId : String) (status : VAL_Status) :
    CommsResponse :=
  if status = VAL_OK then .setAllOk msgId else .setAllError msgId

/-- `COMMS_SendSensorDataResponse` from `app_comms_handler.c`: for an id in
`1..3` it queries `SYS_Coordinator_GetLightSensorData` (fresh hardware
read) and renders the data on success, otherwise (bad id keeps the
`VAL_ERROR` initializer) the generic error frame. -/
def COMMS_SendSensorDataResponse (msgId : String) (lightId : Nat)
    (fresh : Nat → LightSensorData) (cs : CoordState) :
    CoordState × CommsResponse :=
  if 1 ≤ lightId ∧ lightId ≤ 3 then
    match SYS_Coordinator_GetLightSensorData lightId fresh cs with
    | (VAL_OK, some d, cs) => (cs, .sensorDataOk msgId lightId d)
    | (_, _, cs) =>
        (cs, .errorResp msgId "status" "get_sensors" "Failed to retrieve sensor data")
  else
    (cs, .errorResp msgId "status" "get_sensors" "Failed to retrieve sensor data")

/-- `COMMS_SendAllSensorDataResponse` from `app_comms_handler.c`: renders
the coordinator's cached snapshot (`SYS_Coordinator_GetAllLightSensorData`
performs no hardware read and always succeeds). -/
def COMMS_SendAllSensorDataResponse (msgId : String) (cs : CoordState) :
    CommsResponse :=
  .allSensorDataOk msgId (SYS_Coordinator_GetAllLightSensorData cs).2.1

/-- `COMMS_SendAlarmClearResponse` from `app_comms_handler.c`. -/
def COMMS_SendAlarmClearResponse (msgId : String) (lightId : Nat)
    (status : VAL_Status) : CommsResponse :=
  if status = VAL_OK then .alarmClearOk msgId lightId else .alarmClearError msgId lightId

/-- The `switch (alarms[i])` of `COMMS_SendAlarmStatusResponse` mapping a
raw alarm byte to its wire code string. -/
def COMMS_AlarmTypeString (b : Nat) : String :=
  match b with
  | 0 => "none"
  | 1 => "over_current"
  | 2 => "over_temperature"
  | _ => "system_error"

/-- `COMMS_SendAlarmStatusResponse` from `app_comms_handler.c`: lists the
channels whose alarm byte is nonzero, each with the code string of the
`switch` above (`SYS_Coordinator_GetAlarmStatus` always succeeds). -/
def COMMS_SendAlarmStatusResponse (msgId : String) (cs : CoordState) :
    CommsResponse :=
  let alarms := (SYS_Coordinator_GetAlarmStatus cs).2
  .alarmStatusOk msgId
    (((List.range 3).filter (fun i => alarms i ≠ 0)).map
      (fun i => (i + 1, COMMS_AlarmTypeString (alarms i))))

/-- `COMMS_ProcessJsonCommand` from `app_comms_handler.c`, from the point
where the envelope fields have been extracted: the command is handled only
when `type`, `topic` and `action` are all present and the type passes the
`"cmd"` comparison; the topic/action `else if` chain then dispatches, and
any unrecognized topic or action falls off the chain with no response.
Returns the coordinator state after the dispatched call and the list of
response frames sent. -/
def COMMS_ProcessJsonCommand (msg : JsonMsg)
    (fresh : Nat → LightSensorData) (cs : CoordState) :
    CoordState × List CommsResponse :=
  match msg.type?, msg.topic?, msg.action? with
  | some type, some topic, some action =>
    if COMMS_TypeIsCmd type then
      if topic = "system" ∧ action = "ping" then
        (cs, [COMMS_SendPingResponse msg.msgId])
      else if topic = "light" then
        if action = "get" then
          let lightId := msg.data.id?.getD 0
          (cs, [COMMS_SendLightIntensityResponse msg.msgId lightId cs])
        else if action = "get_all" then
          (cs, [COMMS_SendLightIntensityResponse msg.msgId 0 cs])
        else if action = "set" then
          let (status, cs) :=
            match msg.data.id?, msg.data.intensity? with
            | some lightId, some intensity =>
                SYS_Coordinator_SetLightIntensity lightId intensity fresh cs
            | _, _ => (VAL_ERROR, cs)
          (cs, [COMMS_SendSetLightResponse msg.msgId status])
        else if action = "set_all" then
          let (status, cs) :=
            match msg.data.intensities? with
            | some ints => SYS_Coordinator_SetAllLightIntensities ints fresh cs
            | none => (VAL_ERROR, cs)
          (cs, [COMMS_SendSetAllLightsResponse msg.msgId status])
        else (cs, [])
      else if topic = "status" then
        if action = "get_sensors" then
          let lightId := msg.data.id?.getD 0
          if 1 ≤ lightId ∧ lightId ≤ 3 then
            let (cs, r) := COMMS_SendSensorDataResponse msg.msgId lightId fresh cs
            (cs, [r])
          else
            (cs, [.errorResp msg.msgId "status" "get_sensors" "Invalid light ID"])
        else if action = "get_all_sensors" then
          (cs, [COMMS_SendAllSensorDataResponse msg.msgId cs])
        else (cs, [])
      else if topic = "alarm" then
        if action = "clear" then
          match (match msg.data.id? with
                 | some v => some v
                 | none => msg.data.lights_first?) with
          | some lightId =>
            let (status, cs) := SYS_Coordinator_ClearLightAlarm lightId fresh cs
            (cs, [COMMS_SendAlarmClearResponse msg.msgId lightId status])
          | none =>
            (cs, [.errorResp msg.msgId "alarm" "clear" "Invalid parameters"])
        else if action = "status" then
          (cs, [COMMS_SendAlarmStatusResponse msg.msgId cs])
        else (cs, [])
      else (cs, [])
    else (cs, [])
  | _, _, _ => (cs, [])

/-- The (topic, action) pairs the `else if` chain of
`COMMS_ProcessJsonCommand` recognizes. -/
def COMMS_RoutedPairs : List (String × String) :=
  [("system", "ping"),
   ("light", "get"), ("light", "get_all"), ("light", "set"), ("light", "set_all"),
   ("status", "get_sensors"), ("status", "get_all_sensors"),
   ("alarm", "clear"), ("alarm", "status")]

/-!
## Concrete states used to evaluate the definitions
-/

/-- The initial values of the `app_led_driver.c` / `val_pwm.c` statics
(after `LED_Driver_Init`): all intensities 0, zeroed sensor snapshots with
ids 1..3, no alarms, all PWM duties 0. -/
def initialFirmwareState : FirmwareState where
  current_intensities := fun _ => 0
  light_sensor_data := fun i => ⟨i + 1, 0, 0⟩
  light_alarms := fun _ => 0
  pwmDuty := fun _ => 0

/-- The initial values of the `app_sys_coordinator.c` statics. -/
def initialCoordState : CoordState where
  fw := initialFirmwareState
  coord_intensities := fun _ => 0
  coord_sensor_data := fun i => ⟨i + 1, 0, 0⟩
  coord_alarms := fun _ => 0
  previous_light_alarms := fun _ => 0

/-- A hardware reading with all three channels inside their bounds
(current 10 current-units, temperature 50 °C). -/
def readInRange : Nat → LightSensorData :=
  fun i => ⟨i + 1, 10, 50⟩

/-- A hardware reading whose channel-1 temperature (90 °C) exceeds
`LIGHT_TEMP_MAX` (85) while every current and the other temperatures are in
range. -/
def readHotCh1 : Nat → LightSensorData :=
  fun i => if i = 0 then ⟨1, 10, 90⟩ else ⟨i + 1, 10, 50⟩

/-- A hardware reading whose channel-1 current (30) exceeds
`LIGHT_CURRENT_MAX` (25) while every temperature and the other currents are
in range. -/
def readOverCurrentCh1 : Nat → LightSensorData :=
  fun i => if i = 0 then ⟨1, 30, 50⟩ else ⟨i + 1, 10, 50⟩

/-- A hardware reading with channel 1 out of range on both axes
(current 30 > 25 and temperature 90 > 85). -/
def readBothOverCh1 : Nat → LightSensorData :=
  fun i => if i = 0 then ⟨1, 30, 90⟩ else ⟨i + 1, 10, 50⟩

/-- A driver state whose channel-1 alarm byte is latched at
`ERROR_OVER_TEMPERATURE`. -/
def stateAlarmCh1 : FirmwareState :=
  { initialFirmwareState with light_alarms := upd (fun _ => 0) 0 ERROR_OVER_TEMPERATURE }

/-- The `set_all` request payload `[50, 200, 10]` of the specification's
validation-round-trip property (200 is out of the [0,100] domain). -/
def setAllInput : Nat → Nat :=
  fun i => if i = 0 then 50 else if i = 1 then 200 else 10

/-- A well-formed `system`/`ping` command envelope. -/
def msgSystemPing : JsonMsg :=
  ⟨"msg-1", some "cmd", some "system", some "ping", ⟨none, none, none, none⟩⟩

/-- A command envelope with an unknown topic (`topic:"foo"`,
`action:"bar"`). -/
def msgUnknownTopic : JsonMsg :=
  ⟨"msg-2", some "cmd", some "foo", some "bar", ⟨none, none, none, none⟩⟩

/-!
## Supporting lemmas
-/

theorem checkStep_sensors (st : FirmwareState) (i : Nat) :
    (LED_Driver_CheckAlarmStep st i).light_sensor_data = st.light_sensor_data := by
  simp only [LED_Driver_CheckAlarmStep, VAL_PWM_SetIntensity]
  split_ifs <;> rfl

theorem checkStep_alarms_ne (st : FirmwareState) (i j : Nat) (h : j ≠ i) :
    (LED_Driver_CheckAlarmStep st i).light_alarms j = st.light_alarms j := by
  simp only [LED_Driver_CheckAlarmStep, VAL_PWM_SetIntensity]
  split_ifs <;> simp [upd, h]

theorem checkStep_alarms_self (st : FirmwareState) (i : Nat)
    (hc : (st.light_sensor_data i).current > LIGHT_CURRENT_MAX ∨
          (st.light_sensor_data i).current < LIGHT_CURRENT_MIN)
    (ht : (st.light_sensor_data i).temperature > LIGHT_TEMP_MAX ∨
          (st.light_sensor_data i).temperature < LIGHT_TEMP_MIN) :
    (LED_Driver_CheckAlarmStep st i).light_alarms i = ERROR_OVER_TEMPERATURE := by
  simp only [LED_Driver_CheckAlarmStep, VAL_PWM_SetIntensity]
  split_ifs <;> simp_all [upd]

theorem checkStep_id (st : FirmwareState) (i : Nat)
    (hc : ¬((st.light_sensor_data i).current > LIGHT_CURRENT_MAX ∨
            (st.light_sensor_data i).current < LIGHT_CURRENT_MIN))
    (ht : ¬((st.light_sensor_data i).temperature > LIGHT_TEMP_MAX ∨
            (st.light_sensor_data i).temperature < LIGHT_TEMP_MIN)) :
    LED_Driver_CheckAlarmStep st i = st := by
  simp only [LED_Driver_CheckAlarmStep, VAL_PWM_SetIntensity]
  rw [if_neg hc, if_neg ht]

theorem check_unfold (st : FirmwareState) :
    LED_Driver_CheckAlarmConditions st =
      LED_Driver_CheckAlarmStep (LED_Driver_CheckAlarmStep
        (LED_Driver_CheckAlarmStep st 0) 1) 2 := rfl

theorem check_sensors (st : FirmwareState) :
    (LED_Driver_CheckAlarmConditions st).light_sensor_data = st.light_sensor_data := by
  rw [check_unfold, checkStep_sensors, checkStep_sensors, checkStep_sensors]

theorem checkStep_alarms_self_char (st : FirmwareState) (i : Nat) :
    (LED_Driver_CheckAlarmStep st i).light_alarms i =
      (if (st.light_sensor_data i).temperature > LIGHT_TEMP_MAX ∨
          (st.light_sensor_data i).temperature < LIGHT_TEMP_MIN then
        ERROR_OVER_TEMPERATURE
      else if (st.light_sensor_data i).current > LIGHT_CURRENT_MAX ∨
              (st.light_sensor_data i).current < LIGHT_CURRENT_MIN then
        ERROR_OVER_CURRENT
      else st.light_alarms i) := by
  simp only [LED_Driver_CheckAlarmStep, VAL_PWM_SetIntensity]
  split_ifs <;> simp_all [upd]

theorem checkStep_intensities_ne (st : FirmwareState) (i j : Nat) (h : j ≠ i) :
    (LED_Driver_CheckAlarmStep st i).current_intensities j = st.current_intensities j := by
  simp only [LED_Driver_CheckAlarmStep, VAL_PWM_SetIntensity]
  split_ifs <;> simp [upd, h]

theorem checkStep_pwm_ne (st : FirmwareState) (i j : Nat) (h : j ≠ i) :
    (LED_Driver_CheckAlarmStep st i).pwmDuty j = st.pwmDuty j := by
  simp only [LED_Driver_CheckAlarmStep, VAL_PWM_SetIntensity]
  split_ifs <;> simp [upd, h]

/-- Channel-level effect of a full `LED_Driver_CheckAlarmConditions` pass on
the alarm byte: the temperature branch runs last and wins, then the current
branch, else the byte is untouched. -/
theorem check_alarms_char (st : FirmwareState) (c : Nat) (hc : c < 3) :
    (LED_Driver_CheckAlarmConditions st).light_alarms c =
      (if (st.light_sensor_data c).temperature > LIGHT_TEMP_MAX ∨
          (st.light_sensor_data c).temperature < LIGHT_TEMP_MIN then
        ERROR_OVER_TEMPERATURE
      else if (st.light_sensor_data c).current > LIGHT_CURRENT_MAX ∨
              (st.light_sensor_data c).current < LIGHT_CURRENT_MIN then
        ERROR_OVER_CURRENT
      else st.light_alarms c) := by
  have hs0 := checkStep_sensors st 0
  have hs1 : (LED_Driver_CheckAlarmStep (LED_Driver_CheckAlarmStep st 0) 1).light_sensor_data =
      st.light_sensor_data := by rw [checkStep_sensors, checkStep_sensors]
  rw [check_unfold]
  interval_cases c
  · rw [checkStep_alarms_ne _ 2 0 (by omega), checkStep_alarms_ne _ 1 0 (by omega),
      checkStep_alarms_self_char st 0]
  · rw [checkStep_alarms_ne _ 2 1 (by omega), checkStep_alarms_self_char _ 1, hs0,
      checkStep_alarms_ne _ 0 1 (by omega)]
  · rw [checkStep_alarms_self_char _ 2, hs1,
      checkStep_alarms_ne _ 1 2 (by omega), checkStep_alarms_ne _ 0 2 (by omega)]

/-- A nonzero alarm byte survives an alarm-evaluation pass: the two branches
only ever store the nonzero constants `ERROR_OVER_TEMPERATURE` and
`ERROR_OVER_CURRENT`. -/
theorem check_alarms_sticky (st : FirmwareState) (c : Nat) (hc : c < 3)
    (h : st.light_alarms c ≠ 0) :
    (LED_Driver_CheckAlarmConditions st).light_alarms c ≠ 0 := by
  rw [check_alarms_char st c hc]
  split_ifs <;> simp_all [ERROR_OVER_TEMPERATURE, ERROR_OVER_CURRENT]

/-- A channel whose reading is inside both bounds is untouched by a full
`LED_Driver_CheckAlarmConditions` pass (alarm byte, stored intensity and
PWM duty). -/
theorem check_preserve_channel (st : FirmwareState) (c : Nat) (hc : c < 3)
    (hcur : ¬((st.light_sensor_data c).current > LIGHT_CURRENT_MAX ∨
              (st.light_sensor_data c).current < LIGHT_CURRENT_MIN))
    (htemp : ¬((st.light_sensor_data c).temperature > LIGHT_TEMP_MAX ∨
               (st.light_sensor_data c).temperature < LIGHT_TEMP_MIN)) :
    (LED_Driver_CheckAlarmConditions st).light_alarms c = st.light_alarms c ∧
    (LED_Driver_CheckAlarmConditions st).current_intensities c = st.current_intensities c ∧
    (LED_Driver_CheckAlarmConditions st).pwmDuty c = st.pwmDuty c := by
  have hs0 := checkStep_sensors st 0
  have hs1 : (LED_Driver_CheckAlarmStep (LED_Driver_CheckAlarmStep st 0) 1).light_sensor_data =
      st.light_sensor_data := by rw [checkStep_sensors, checkStep_sensors]
  rw [check_unfold]
  interval_cases c
  · rw [checkStep_id st 0 hcur htemp]
    exact ⟨by rw [checkStep_alarms_ne _ 2 0 (by omega), checkStep_alarms_ne _ 1 0 (by omega)],
      by rw [checkStep_intensities_ne _ 2 0 (by omega), checkStep_intensities_ne _ 1 0 (by omega)],
      by rw [checkStep_pwm_ne _ 2 0 (by omega), checkStep_pwm_ne _ 1 0 (by omega)]⟩
  · rw [checkStep_id _ 1 (by rw [hs0]; exact hcur) (by rw [hs0]; exact htemp)]
    exact ⟨by rw [checkStep_alarms_ne _ 2 1 (by omega), checkStep_alarms_ne _ 0 1 (by omega)],
      by rw [checkStep_intensities_ne _ 2 1 (by omega), checkStep_intensities_ne _ 0 1 (by omega)],
      by rw [checkStep_pwm_ne _ 2 1 (by omega), checkStep_pwm_ne _ 0 1 (by omega)]⟩
  · rw [checkStep_id _ 2 (by rw [hs1]; exact hcur) (by rw [hs1]; exact htemp)]
    exact ⟨by rw [checkStep_alarms_ne _ 1 2 (by omega), checkStep_alarms_ne _ 0 2 (by omega)],
      by rw [checkStep_intensities_ne _ 1 2 (by omega), checkStep_intensities_ne _ 0 2 (by omega)],
      by rw [checkStep_pwm_ne _ 1 2 (by omega), checkStep_pwm_ne _ 0 2 (by omega)]⟩

theorem setAllStep_ok (ints : Nat → Nat) (st : FirmwareState) (i : Nat)
    (hal : st.light_alarms i = 0) (hi : i < 3) :
    LED_Driver_SetAllStep ints (VAL_OK, st) i =
      (VAL_OK, { st with
        current_intensities := upd st.current_intensities i (ints i),
        pwmDuty := upd st.pwmDuty i
          (if ints i > PWM_MAX_INTENSITY then PWM_MAX_INTENSITY else ints i) }) := by
  have hg : ¬(i + 1 < 1 ∨ i + 1 > PWM_CHANNEL_COUNT) := by
    simp only [PWM_CHANNEL_COUNT]; omega
  simp only [LED_Driver_SetAllStep, VAL_PWM_SetIntensity]
  rw [if_neg (by simp [hal]), if_neg hg]
  simp

theorem check_id (st : FirmwareState)
    (hin : ∀ i, i < 3 →
      ¬((st.light_sensor_data i).current > LIGHT_CURRENT_MAX ∨
        (st.light_sensor_data i).current < LIGHT_CURRENT_MIN) ∧
      ¬((st.light_sensor_data i).temperature > LIGHT_TEMP_MAX ∨
        (st.light_sensor_data i).temperature < LIGHT_TEMP_MIN)) :
    LED_Driver_CheckAlarmConditions st = st := by
  rw [check_unfold,
    checkStep_id st 0 (hin 0 (by omega)).1 (hin 0 (by omega)).2,
    checkStep_id st 1 (hin 1 (by omega)).1 (hin 1 (by omega)).2,
    checkStep_id st 2 (hin 2 (by omega)).1 (hin 2 (by omega)).2]

/-!
## Tick and run lemmas for the periodic refresh loop
-/

theorem diffStep_fst (acc : CoordState × List AlarmEvent) (i : Nat) :
    (SYS_Coordinator_AlarmDiffStep acc i).1 =
      { acc.1 with
        previous_light_alarms := upd acc.1.previous_light_alarms i (acc.1.coord_alarms i) } := rfl

theorem diffStep_snd (acc : CoordState × List AlarmEvent) (i : Nat) :
    (SYS_Coordinator_AlarmDiffStep acc i).2 =
      (if acc.1.coord_alarms i ≠ 0 ∧ acc.1.previous_light_alarms i = 0 then
        acc.2 ++ [⟨i + 1, acc.1.coord_alarms i,
          if acc.1.coord_alarms i = 1 then (acc.1.coord_sensor_data i).current
          else if acc.1.coord_alarms i = 2 then (acc.1.coord_sensor_data i).temperature
          else 0⟩]
      else acc.2) := rfl

theorem tick_unfold (fresh : Nat → LightSensorData) (cs : CoordState) :
    SYS_Coordinator_Tick fresh cs =
      (List.range 3).foldl SYS_Coordinator_AlarmDiffStep
        ({ fw := LED_Driver_CheckAlarmConditions { cs.fw with light_sensor_data := fresh },
           coord_intensities := cs.fw.current_intensities,
           coord_sensor_data := (LED_Driver_CheckAlarmConditions
             { cs.fw with light_sensor_data := fresh }).light_sensor_data,
           coord_alarms := (LED_Driver_CheckAlarmConditions
             { cs.fw with light_sensor_data := fresh }).light_alarms,
           previous_light_alarms := cs.previous_light_alarms }, []) := rfl

theorem diff3_fw (cs : CoordState) :
    ((List.range 3).foldl SYS_Coordinator_AlarmDiffStep (cs, [])).1.fw = cs.fw := by
  rw [show List.range 3 = [0, 1, 2] from rfl]
  simp only [List.foldl_cons, List.foldl_nil, diffStep_fst]

theorem diff3_alarms (cs : CoordState) :
    ((List.range 3).foldl SYS_Coordinator_AlarmDiffStep (cs, [])).1.coord_alarms =
      cs.coord_alarms := by
  rw [show List.range 3 = [0, 1, 2] from rfl]
  simp only [List.foldl_cons, List.foldl_nil, diffStep_fst]

theorem diff3_prev (cs : CoordState) (c : Nat) (hc : c < 3) :
    ((List.range 3).foldl SYS_Coordinator_AlarmDiffStep (cs, [])).1.previous_light_alarms c =
      cs.coord_alarms c := by
  rw [show List.range 3 = [0, 1, 2] from rfl]
  simp only [List.foldl_cons, List.foldl_nil, diffStep_fst]
  interval_cases c <;> simp [upd]

theorem diff3_filter (cs : CoordState) (c : Nat) (hc : c < 3) :
    (((List.range 3).foldl SYS_Coordinator_AlarmDiffStep (cs, [])).2.filter
        (fun e => e.lightId = c + 1)) =
      (if cs.coord_alarms c ≠ 0 ∧ cs.previous_light_alarms c = 0 then
        [⟨c + 1, cs.coord_alarms c,
          if cs.coord_alarms c = 1 then (cs.coord_sensor_data c).current
          else if cs.coord_alarms c = 2 then (cs.coord_sensor_data c).temperature
          else 0⟩]
      else []) := by
  rw [show List.range 3 = [0, 1, 2] from rfl]
  simp only [List.foldl_cons, List.foldl_nil, diffStep_snd, diffStep_fst, upd]
  interval_cases c <;> (norm_num; split_ifs <;> simp [List.filter])

theorem tick_char (fresh : Nat → LightSensorData) (cs : CoordState) (c : Nat) (hc : c < 3) :
    (SYS_Coordinator_Tick fresh cs).1.fw =
      LED_Driver_CheckAlarmConditions { cs.fw with light_sensor_data := fresh } ∧
    (SYS_Coordinator_Tick fresh cs).1.coord_alarms =
      (SYS_Coordinator_Tick fresh cs).1.fw.light_alarms ∧
    (SYS_Coordinator_Tick fresh cs).1.previous_light_alarms c =
      (SYS_Coordinator_Tick fresh cs).1.fw.light_alarms c ∧
    (SYS_Coordinator_Tick fresh cs).2.filter (fun e => e.lightId = c + 1) =
      (if (LED_Driver_CheckAlarmConditions
            { cs.fw with light_sensor_data := fresh }).light_alarms c ≠ 0 ∧
          cs.previous_light_alarms c = 0 then
        [⟨c + 1,
          (LED_Driver_CheckAlarmConditions
            { cs.fw with light_sensor_data := fresh }).light_alarms c,
          if (LED_Driver_CheckAlarmConditions
              { cs.fw with light_sensor_data := fresh }).light_alarms c = 1 then
            (fresh c).current
          else if (LED_Driver_CheckAlarmConditions
              { cs.fw with light_sensor_data := fresh }).light_alarms c = 2 then
            (fresh c).temperature
          else 0⟩]
      else []) := by
  refine ⟨?_, ?_, ?_, ?_⟩
  · rw [tick_unfold, diff3_fw]
  · rw [tick_unfold, diff3_fw, diff3_alarms]
  · rw [tick_unfold, diff3_fw, diff3_prev _ c hc]
  · rw [tick_unfold, diff3_filter _ c hc, check_sensors]

theorem runStep_eq (acc : CoordState × List AlarmEvent) (r : Nat → LightSensorData) :
    SYS_Coordinator_RunStep acc r =
      ((SYS_Coordinator_Tick r acc.1).1, acc.2 ++ (SYS_Coordinator_Tick r acc.1).2) := rfl

theorem run_acc (reads : List (Nat → LightSensorData)) :
    ∀ (cs : CoordState) (es0 : List AlarmEvent),
      reads.foldl SYS_Coordinator_RunStep (cs, es0) =
        ((SYS_Coordinator_Run reads cs).1, es0 ++ (SYS_Coordinator_Run reads cs).2) := by
  induction reads with
  | nil =>
    intro cs es0
    show (cs, es0) = ((cs, ([] : List AlarmEvent)).1, es0 ++ (cs, ([] : List AlarmEvent)).2)
    simp
  | cons r rs ih =>
    intro cs es0
    have h1 : SYS_Coordinator_Run (r :: rs) cs =
        ((SYS_Coordinator_Run rs (SYS_Coordinator_Tick r cs).1).1,
          (SYS_Coordinator_Tick r cs).2 ++
            (SYS_Coordinator_Run rs (SYS_Coordinator_Tick r cs).1).2) := by
      show List.foldl SYS_Coordinator_RunStep (cs, []) (r :: rs) = _
      rw [List.foldl_cons, runStep_eq, ih]
      simp
    rw [List.foldl_cons, runStep_eq, ih, h1]
    simp [List.append_assoc]

theorem run_cons (r : Nat → LightSensorData) (rs : List (Nat → LightSensorData))
    (cs : CoordState) :
    SYS_Coordinator_Run (r :: rs) cs =
      ((SYS_Coordinator_Run rs (SYS_Coordinator_Tick r cs).1).1,
        (SYS_Coordinator_Tick r cs).2 ++
          (SYS_Coordinator_Run rs (SYS_Coordinator_Tick r cs).1).2) := by
  show List.foldl SYS_Coordinator_RunStep (cs, []) (r :: rs) = _
  rw [List.foldl_cons, runStep_eq, run_acc rs]
  simp

theorem tick_alarm_sticky (fresh : Nat → LightSensorData) (cs : CoordState) (c : Nat)
    (hc : c < 3) (h : cs.fw.light_alarms c ≠ 0) :
    (SYS_Coordinator_Tick fresh cs).1.fw.light_alarms c ≠ 0 := by
  rw [(tick_char fresh cs c hc).1]
  exact check_alarms_sticky _ c hc h

theorem run_alarm_sticky (reads : List (Nat → LightSensorData)) :
    ∀ (cs : CoordState) (c : Nat), c < 3 → cs.fw.light_alarms c ≠ 0 →
      (SYS_Coordinator_Run reads cs).1.fw.light_alarms c ≠ 0 := by
  induction reads with
  | nil => intro cs c _ h; exact h
  | cons r rs ih =>
    intro cs c hc h
    rw [run_cons]
    exact ih _ c hc (tick_alarm_sticky r cs c hc h)

theorem run_count (c : Nat) (hc : c < 3) (reads : List (Nat → LightSensorData)) :
    ∀ cs : CoordState, cs.previous_light_alarms c = cs.fw.light_alarms c →
      ((SYS_Coordinator_Run reads cs).2.filter (fun e => e.lightId = c + 1)).length =
        (if cs.fw.light_alarms c = 0 ∧
            (SYS_Coordinator_Run reads cs).1.fw.light_alarms c ≠ 0 then 1 else 0) := by
  induction reads with
  | nil =>
    intro cs hsync
    show ((List.filter _ (cs, ([] : List AlarmEvent)).2).length) =
      (if cs.fw.light_alarms c = 0 ∧ (cs, ([] : List AlarmEvent)).1.fw.light_alarms c ≠ 0
       then 1 else 0)
    rw [if_neg]
    · rfl
    · rintro ⟨h1, h2⟩
      exact h2 h1
  | cons r rs ih =>
    intro cs hsync
    have ht := tick_char r cs c hc
    rw [run_cons]
    simp only [List.filter_append, List.length_append]
    rw [ht.2.2.2, ih (SYS_Coordinator_Tick r cs).1 ht.2.2.1]
    have hTfw : (SYS_Coordinator_Tick r cs).1.fw.light_alarms c =
        (LED_Driver_CheckAlarmConditions
          { cs.fw with light_sensor_data := r }).light_alarms c := by
      rw [ht.1]
    by_cases hold : cs.fw.light_alarms c = 0
    · by_cases hnew : (LED_Driver_CheckAlarmConditions
          { cs.fw with light_sensor_data := r }).light_alarms c = 0
      · rw [if_neg (by simp [hnew])]
        have hT0 : (SYS_Coordinator_Tick r cs).1.fw.light_alarms c = 0 := by
          rw [hTfw]; exact hnew
        simp [hold, hT0]
      · rw [if_pos ⟨hnew, by rw [hsync, hold]⟩]
        have hT1 : (SYS_Coordinator_Tick r cs).1.fw.light_alarms c ≠ 0 := by
          rw [hTfw]; exact hnew
        have hfin : (SYS_Coordinator_Run rs
            (SYS_Coordinator_Tick r cs).1).1.fw.light_alarms c ≠ 0 :=
          run_alarm_sticky rs _ c hc hT1
        simp [hold, hT1, hfin]
    · have hprev : ¬(cs.previous_light_alarms c = 0) := by
        rw [hsync]; exact hold
      rw [if_neg (by rintro ⟨_, h2⟩; exact hprev h2)]
      have hT1 : (SYS_Coordinator_Tick r cs).1.fw.light_alarms c ≠ 0 :=
        tick_alarm_sticky r cs c hc hold
      simp [hold, hT1]

/-!
## Claim theorems
-/

/-- C1: the claim states the actuator is never commanded to a nonzero duty
while the channel's alarm is non-None, and in particular that when
`set_intensity`'s sensor refresh trips the alarm the actuator is not
commanded with the requested pct. The code violates this:
`LED_Driver_SetIntensity 1 50` under a 90 °C channel-1 reading returns
`VAL_OK` with the alarm latched (`ERROR_OVER_TEMPERATURE`) and the stored
intensity forced to 0, yet its final `VAL_PWM_SetIntensity` call leaves the
channel-1 PWM duty commanded at the requested 50. -/
theorem C1_set_intensity_repowers_alarmed_channel :
    (LED_Driver_SetIntensity 1 50 readHotCh1 initialFirmwareState).1 = VAL_OK ∧
    (LED_Driver_SetIntensity 1 50 readHotCh1 initialFirmwareState).2.light_alarms 0 =
      ERROR_OVER_TEMPERATURE ∧
    (LED_Driver_SetIntensity 1 50 readHotCh1 initialFirmwareState).2.current_intensities 0 = 0 ∧
    (LED_Driver_SetIntensity 1 50 readHotCh1 initialFirmwareState).2.pwmDuty 0 = 50 := by
  refine ⟨rfl, by decide, by decide, by decide⟩

/-- C2: for a channel id in 1..3 and an intensity in 0..100, if the
channel's alarm byte is nonzero at the time of the call,
`LED_Driver_SetIntensity` fails (the alarm-gate `return VAL_ERROR`, the
spec's `AlarmActive`) and returns the state completely unchanged — the gate
sits before the sensor refresh, the intensity store and the PWM call. -/
theorem C2_alarm_gates_set_intensity (st : FirmwareState) (c p : Nat)
    (fresh : Nat → LightSensorData)
    (h1 : 1 ≤ c) (h2 : c ≤ 3) (h3 : p ≤ 100)
    (h4 : st.light_alarms (c - 1) ≠ 0) :
    LED_Driver_SetIntensity c p fresh st = (VAL_ERROR, st) := by
  have hv : ¬(c < 1 ∨ c > NUM_LIGHT_SOURCES) := by
    simp only [NUM_LIGHT_SOURCES]; omega
  simp [LED_Driver_SetIntensity, LED_Driver_ValidateLightId, hv, h4,
    Nat.not_lt.mpr h3]

theorem C2_alarm_gates_set_intensity_witness :
    1 ≤ 1 ∧ 1 ≤ 3 ∧ 50 ≤ 100 ∧ stateAlarmCh1.light_alarms (1 - 1) ≠ 0 ∧
    LED_Driver_SetIntensity 1 50 readInRange stateAlarmCh1 = (VAL_ERROR, stateAlarmCh1) :=
  ⟨by decide, by decide, by decide, by decide,
    C2_alarm_gates_set_intensity stateAlarmCh1 1 50 readInRange
      (by decide) (by decide) (by decide) (by decide)⟩

/-- C3 counterexample: with channel 1 out of range on both axes
(current 30 > 25 and temperature 90 > 85), the alarm evaluation leaves the
channel's alarm byte at `ERROR_OVER_TEMPERATURE`, not `ERROR_OVER_CURRENT`:
the claim that the current alarm wins the tie is false. -/
theorem C3_tie_is_not_over_current :
    (LED_Driver_CheckAlarmConditions
        { initialFirmwareState with light_sensor_data := readBothOverCh1 }).light_alarms 0 =
      ERROR_OVER_TEMPERATURE ∧
    ERROR_OVER_TEMPERATURE ≠ ERROR_OVER_CURRENT := by
  exact ⟨by decide, by decide⟩

/-- C3 amended: in `LED_Driver_CheckAlarmConditions`, when a channel's
current and temperature are both out of range in the same evaluation, the
temperature branch runs second and its assignment overwrites the current
alarm, so the resulting alarm kind is `ERROR_OVER_TEMPERATURE` — the
temperature alarm wins the tie. -/
theorem C3_temperature_wins_tie (st : FirmwareState) (c : Nat) (hc : c < 3)
    (hcur : (st.light_sensor_data c).current > LIGHT_CURRENT_MAX ∨
            (st.light_sensor_data c).current < LIGHT_CURRENT_MIN)
    (htemp : (st.light_sensor_data c).temperature > LIGHT_TEMP_MAX ∨
             (st.light_sensor_data c).temperature < LIGHT_TEMP_MIN) :
    (LED_Driver_CheckAlarmConditions st).light_alarms c = ERROR_OVER_TEMPERATURE := by
  rw [check_unfold]
  interval_cases c
  · rw [checkStep_alarms_ne _ 2 0 (by omega), checkStep_alarms_ne _ 1 0 (by omega),
      checkStep_alarms_self st 0 hcur htemp]
  · have hs := checkStep_sensors st 0
    rw [checkStep_alarms_ne _ 2 1 (by omega),
      checkStep_alarms_self _ 1 (by rw [hs]; exact hcur) (by rw [hs]; exact htemp)]
  · have hs : (LED_Driver_CheckAlarmStep (LED_Driver_CheckAlarmStep st 0) 1).light_sensor_data =
        st.light_sensor_data := by
      rw [checkStep_sensors, checkStep_sensors]
    rw [checkStep_alarms_self _ 2 (by rw [hs]; exact hcur) (by rw [hs]; exact htemp)]

theorem C3_temperature_wins_tie_witness :
    0 < 3 ∧
    ((({ initialFirmwareState with light_sensor_data := readBothOverCh1 } :
        FirmwareState).light_sensor_data 0).current > LIGHT_CURRENT_MAX ∨
      (({ initialFirmwareState with light_sensor_data := readBothOverCh1 } :
        FirmwareState).light_sensor_data 0).current < LIGHT_CURRENT_MIN) ∧
    (LED_Driver_CheckAlarmConditions
        { initialFirmwareState with light_sensor_data := readBothOverCh1 }).light_alarms 0 =
      ERROR_OVER_TEMPERATURE :=
  ⟨by decide, by decide,
    C3_temperature_wins_tie
      { initialFirmwareState with light_sensor_data := readBothOverCh1 } 0
      (by decide) (by decide) (by decide)⟩

/-- C5 counterexample: the claim states a failed `clear_alarm` leaves the
channel's alarm unchanged. With channel 1 latched at
`ERROR_OVER_TEMPERATURE` and a fresh reading whose current (30) is over
range while the temperature (50) is back in range, `LED_Driver_ClearAlarm 1`
fails with `VAL_ERROR` — but the sensor refresh inside it re-ran the alarm
evaluation, whose current branch stored `ERROR_OVER_CURRENT`: the alarm
byte ends at `ERROR_OVER_CURRENT`, not at the `ERROR_OVER_TEMPERATURE` it
held before the failed clear. -/
theorem C5_failed_clear_rewrites_alarm :
    stateAlarmCh1.light_alarms 0 = ERROR_OVER_TEMPERATURE ∧
    (LED_Driver_ClearAlarm 1 readOverCurrentCh1 stateAlarmCh1).1 = VAL_ERROR ∧
    (LED_Driver_ClearAlarm 1 readOverCurrentCh1 stateAlarmCh1).2.light_alarms 0 =
      ERROR_OVER_CURRENT ∧
    ERROR_OVER_CURRENT ≠ ERROR_OVER_TEMPERATURE := by
  exact ⟨by decide, by decide, by decide, by decide⟩

/-- C5 amended: `clear_alarm(c)` succeeds iff, after the fresh sensor
refresh, both current and temperature of channel c are within their
bounds; on success the alarm is cleared and the channel's stored intensity
and PWM duty are unchanged (no resume of previous intensity). On failure
the call fails with `VAL_ERROR` and the channel remains alarmed, but the
refresh's re-evaluation rewrites the alarm byte to the kind of the
still-violated axis (`ERROR_OVER_TEMPERATURE` if the temperature is out of
range, else `ERROR_OVER_CURRENT`), so a failed clear may change the alarm
kind rather than leave it unchanged. -/
theorem C5_clear_alarm_rechecks (st : FirmwareState) (c : Nat)
    (fresh : Nat → LightSensorData) (h1 : 1 ≤ c) (h2 : c ≤ 3) :
    ((¬((fresh (c - 1)).current > LIGHT_CURRENT_MAX ∨
        (fresh (c - 1)).current < LIGHT_CURRENT_MIN) ∧
      ¬((fresh (c - 1)).temperature > LIGHT_TEMP_MAX ∨
        (fresh (c - 1)).temperature < LIGHT_TEMP_MIN)) →
      (LED_Driver_ClearAlarm c fresh st).1 = VAL_OK ∧
      (LED_Driver_ClearAlarm c fresh st).2.light_alarms (c - 1) = 0 ∧
      (LED_Driver_ClearAlarm c fresh st).2.current_intensities (c - 1) =
        st.current_intensities (c - 1) ∧
      (LED_Driver_ClearAlarm c fresh st).2.pwmDuty (c - 1) = st.pwmDuty (c - 1)) ∧
    (((fresh (c - 1)).current > LIGHT_CURRENT_MAX ∨
      (fresh (c - 1)).temperature > LIGHT_TEMP_MAX ∨
      (fresh (c - 1)).current < LIGHT_CURRENT_MIN ∨
      (fresh (c - 1)).temperature < LIGHT_TEMP_MIN) →
      (LED_Driver_ClearAlarm c fresh st).1 = VAL_ERROR ∧
      (LED_Driver_ClearAlarm c fresh st).2.light_alarms (c - 1) =
        (if (fresh (c - 1)).temperature > LIGHT_TEMP_MAX ∨
            (fresh (c - 1)).temperature < LIGHT_TEMP_MIN then
          ERROR_OVER_TEMPERATURE
        else ERROR_OVER_CURRENT) ∧
      (LED_Driver_ClearAlarm c fresh st).2.light_alarms (c - 1) ≠ 0) := by
  have hg : ¬(c < 1 ∨ c > 3) := by omega
  have hk : c - 1 < 3 := by omega
  have hv : LED_Driver_ValidateLightId c = VAL_OK := by
    simp only [LED_Driver_ValidateLightId, NUM_LIGHT_SOURCES]
    rw [if_neg hg]
  have hsen : (LED_Driver_CheckAlarmConditions
      { st with light_sensor_data := fresh }).light_sensor_data = fresh :=
    check_sensors _
  constructor
  · rintro ⟨hcur, htemp⟩
    obtain ⟨hal, hint, hpwm⟩ :=
      check_preserve_channel { st with light_sensor_data := fresh } (c - 1) hk hcur htemp
    have hcond : ¬(((LED_Driver_CheckAlarmConditions
          { st with light_sensor_data := fresh }).light_sensor_data (c - 1)).current >
            LIGHT_CURRENT_MAX ∨
        ((LED_Driver_CheckAlarmConditions
          { st with light_sensor_data := fresh }).light_sensor_data (c - 1)).temperature >
            LIGHT_TEMP_MAX ∨
        ((LED_Driver_CheckAlarmConditions
          { st with light_sensor_data := fresh }).light_sensor_data (c - 1)).current <
            LIGHT_CURRENT_MIN ∨
        ((LED_Driver_CheckAlarmConditions
          { st with light_sensor_data := fresh }).light_sensor_data (c - 1)).temperature <
            LIGHT_TEMP_MIN) := by
      rw [hsen]
      rintro (h | h | h | h)
      · exact hcur (Or.inl h)
      · exact htemp (Or.inl h)
      · exact hcur (Or.inr h)
      · exact htemp (Or.inr h)
    simp only [LED_Driver_ClearAlarm, LED_Driver_UpdateSensorReadings,
      VAL_Analog_GetAllSensorData, hv]
    rw [if_neg (by simp)]
    rw [if_neg (by simp)]
    rw [if_neg hcond]
    refine ⟨rfl, by simp [upd], ?_, ?_⟩
    · simpa using hint
    · simpa using hpwm
  · intro hout
    have hcond : ((LED_Driver_CheckAlarmConditions
          { st with light_sensor_data := fresh }).light_sensor_data (c - 1)).current >
            LIGHT_CURRENT_MAX ∨
        ((LED_Driver_CheckAlarmConditions
          { st with light_sensor_data := fresh }).light_sensor_data (c - 1)).temperature >
            LIGHT_TEMP_MAX ∨
        ((LED_Driver_CheckAlarmConditions
          { st with light_sensor_data := fresh }).light_sensor_data (c - 1)).current <
            LIGHT_CURRENT_MIN ∨
        ((LED_Driver_CheckAlarmConditions
          { st with light_sensor_data := fresh }).light_sensor_data (c - 1)).temperature <
            LIGHT_TEMP_MIN := by
      rw [hsen]; exact hout
    have hchar := check_alarms_char { st with light_sensor_data := fresh } (c - 1) hk
    simp only [LED_Driver_ClearAlarm, LED_Driver_UpdateSensorReadings,
      VAL_Analog_GetAllSensorData, hv]
    rw [if_neg (by simp)]
    rw [if_neg (by simp)]
    rw [if_pos hcond]
    refine ⟨rfl, ?_, ?_⟩
    · rw [hchar]
      dsimp only
      split_ifs with hA hB
      · rfl
      · rfl
      · exfalso
        rcases hout with h | h | h | h
        · exact hB (Or.inl h)
        · exact hA (Or.inl h)
        · exact hB (Or.inr h)
        · exact hA (Or.inr h)
    · rw [hchar]
      dsimp only
      split_ifs with hA hB
      · decide
      · decide
      · exfalso
        rcases hout with h | h | h | h
        · exact hB (Or.inl h)
        · exact hA (Or.inl h)
        · exact hB (Or.inr h)
        · exact hA (Or.inr h)

theorem C5_clear_alarm_rechecks_witness :
    1 ≤ 1 ∧ 1 ≤ 3 ∧
    ((readOverCurrentCh1 (1 - 1)).current > LIGHT_CURRENT_MAX ∨
     (readOverCurrentCh1 (1 - 1)).temperature > LIGHT_TEMP_MAX ∨
     (readOverCurrentCh1 (1 - 1)).current < LIGHT_CURRENT_MIN ∨
     (readOverCurrentCh1 (1 - 1)).temperature < LIGHT_TEMP_MIN) ∧
    ((LED_Driver_ClearAlarm 1 readOverCurrentCh1 stateAlarmCh1).1 = VAL_ERROR ∧
     (LED_Driver_ClearAlarm 1 readOverCurrentCh1 stateAlarmCh1).2.light_alarms (1 - 1) =
       (if (readOverCurrentCh1 (1 - 1)).temperature > LIGHT_TEMP_MAX ∨
           (readOverCurrentCh1 (1 - 1)).temperature < LIGHT_TEMP_MIN then
         ERROR_OVER_TEMPERATURE
       else ERROR_OVER_CURRENT) ∧
     (LED_Driver_ClearAlarm 1 readOverCurrentCh1 stateAlarmCh1).2.light_alarms (1 - 1) ≠ 0) :=
  ⟨by decide, by decide, by decide,
    (C5_clear_alarm_rechecks stateAlarmCh1 1 readOverCurrentCh1 (by decide) (by decide)).2
      (by decide)⟩

/-- C9: the claim states `get_alarm_status` returns exactly the 3-element
alarm vector without touching other state. In
`SYS_Coordinator_GetAlarmStatus` the source copies
`sizeof(alarms)` bytes where `alarms` is a `uint8_t *` parameter: 4 bytes
on the 32-bit target instead of the `NUM_LIGHT_SOURCES * sizeof(uint8_t)
= 3` bytes of the alarm array, overrunning both arrays by one byte. -/
theorem C9_get_alarm_status_copy_size_mismatch :
    SYS_Coordinator_GetAlarmStatus_copyBytes = 4 ∧
    NUM_LIGHT_SOURCES * sizeof_uint8_t = 3 ∧
    SYS_Coordinator_GetAlarmStatus_copyBytes ≠ NUM_LIGHT_SOURCES * sizeof_uint8_t := by
  decide

/-- C10: `VAL_PWM_SetIntensity` on a valid channel clamps any intensity
above 100 down to `PWM_MAX_INTENSITY = 100` and returns `VAL_OK` rather
than an error, so an out-of-range intensity reaching actuation (as on the
unvalidated `set_all_intensities` path) is silently clamped at the
actuator. -/
theorem C10_pwm_clamps_over_100 (channel intensity : Nat) (st : FirmwareState)
    (h1 : 1 ≤ channel) (h2 : channel ≤ 3) (h3 : intensity > 100) :
    VAL_PWM_SetIntensity channel intensity st =
      (VAL_OK, { st with pwmDuty := upd st.pwmDuty (channel - 1) PWM_MAX_INTENSITY }) := by
  have hg : ¬(channel < 1 ∨ channel > PWM_CHANNEL_COUNT) := by
    simp only [PWM_CHANNEL_COUNT]; omega
  have hm : intensity > PWM_MAX_INTENSITY := by
    simp only [PWM_MAX_INTENSITY]; omega
  unfold VAL_PWM_SetIntensity
  rw [if_neg hg, if_pos hm]

/-- C4 counterexample: `set_all_intensities([50, 200, 10])` with no alarms
and in-range readings does not fail with `InvalidParameter` — it returns
`VAL_OK`, stores the out-of-range 200 verbatim in channel 2's intensity
(which was 0 before the call), and leaves the channel-2 PWM clamped to
100: the call has full effect. -/
theorem C4_set_all_accepts_out_of_range :
    (SYS_Coordinator_SetAllLightIntensities setAllInput readInRange initialCoordState).1 =
      VAL_OK ∧
    initialCoordState.fw.current_intensities 1 = 0 ∧
    (SYS_Coordinator_SetAllLightIntensities setAllInput readInRange
        initialCoordState).2.fw.current_intensities 1 = 200 ∧
    (SYS_Coordinator_SetAllLightIntensities setAllInput readInRange
        initialCoordState).2.fw.pwmDuty 1 = 100 := by
  exact ⟨by decide, by decide, by decide, by decide⟩

/-- C4 amended: `LED_Driver_SetAllIntensities` performs no up-front range
validation at all. With no active alarms and in-range fresh readings, the
call succeeds (`VAL_OK`) for every input array — including arrays with
values above 100 — storing each requested value verbatim in
`current_intensities` while the PWM layer clamps the commanded duty of
each channel to `PWM_MAX_INTENSITY`. -/
theorem C4_set_all_never_validates (intensities : Nat → Nat) (st : FirmwareState)
    (fresh : Nat → LightSensorData)
    (halarm0 : st.light_alarms 0 = 0) (halarm1 : st.light_alarms 1 = 0)
    (halarm2 : st.light_alarms 2 = 0)
    (hin : ∀ i, i < 3 →
      ¬((fresh i).current > LIGHT_CURRENT_MAX ∨ (fresh i).current < LIGHT_CURRENT_MIN) ∧
      ¬((fresh i).temperature > LIGHT_TEMP_MAX ∨ (fresh i).temperature < LIGHT_TEMP_MIN)) :
    (LED_Driver_SetAllIntensities intensities fresh st).1 = VAL_OK ∧
    ∀ i, i < 3 →
      (LED_Driver_SetAllIntensities intensities fresh st).2.current_intensities i =
        intensities i ∧
      (LED_Driver_SetAllIntensities intensities fresh st).2.pwmDuty i =
        (if intensities i > PWM_MAX_INTENSITY then PWM_MAX_INTENSITY else intensities i) := by
  have hrange : List.range NUM_LIGHT_SOURCES = [0, 1, 2] := rfl
  have hst1 : LED_Driver_CheckAlarmConditions { st with light_sensor_data := fresh } =
      { st with light_sensor_data := fresh } :=
    check_id { st with light_sensor_data := fresh } (fun i hi => hin i hi)
  simp only [LED_Driver_SetAllIntensities, LED_Driver_UpdateSensorReadings,
    VAL_Analog_GetAllSensorData, hrange, List.foldl_cons, List.foldl_nil, hst1]
  rw [setAllStep_ok intensities]
  rw [setAllStep_ok intensities]
  rw [setAllStep_ok intensities]
  · rw [check_id _ (fun i hi => hin i hi)]
    refine ⟨by simp, ?_⟩
    intro i hi
    interval_cases i <;> exact ⟨by simp [upd], by simp [upd]⟩
  all_goals first
    | exact halarm0
    | exact halarm1
    | exact halarm2
    | omega

theorem C4_set_all_never_validates_witness :
    initialFirmwareState.light_alarms 0 = 0 ∧
    (LED_Driver_SetAllIntensities setAllInput readInRange initialFirmwareState).1 =
      VAL_OK ∧
    (LED_Driver_SetAllIntensities setAllInput readInRange
        initialFirmwareState).2.current_intensities 1 = setAllInput 1 ∧
    (LED_Driver_SetAllIntensities setAllInput readInRange
        initialFirmwareState).2.pwmDuty 1 =
      (if setAllInput 1 > PWM_MAX_INTENSITY then PWM_MAX_INTENSITY else setAllInput 1) :=
  have h := C4_set_all_never_validates setAllInput initialFirmwareState readInRange
    (by decide) (by decide) (by decide)
    (fun i hi => by interval_cases i <;> exact ⟨by decide, by decide⟩)
  ⟨by decide, h.1, (h.2 1 (by decide)).1, (h.2 1 (by decide)).2⟩

/-- C6 counterexample: a syntactically valid command envelope with
`type:"cmd"` but the unknown topic `"foo"` produces no response at all —
it falls off the router's `else if` chain, contradicting the claim that an
unknown topic yields an `InvalidCommand` response. -/
theorem C6_unknown_topic_dropped :
    msgUnknownTopic.type? = some "cmd" ∧
    (COMMS_ProcessJsonCommand msgUnknownTopic readInRange initialCoordState).2 = [] := by
  refine ⟨rfl, ?_⟩
  simp [COMMS_ProcessJsonCommand, msgUnknownTopic, COMMS_TypeIsCmd]

/-- C6 amended: for every syntactically valid command envelope whose
`type`, `topic` and `action` are present and whose type passes the
router's `"cmd"` check, the router emits exactly one response when the
(topic, action) pair is one of the nine recognized pairs, and emits no
response at all otherwise — an unknown topic, or a known topic with an
unknown action, is silently dropped rather than answered with
`InvalidCommand`. -/
theorem C6_response_iff_recognized (msg : JsonMsg)
    (fresh : Nat → LightSensorData) (cs : CoordState)
    (type topic action : String)
    (ht : msg.type? = some type) (hto : msg.topic? = some topic)
    (ha : msg.action? = some action)
    (hcmd : COMMS_TypeIsCmd type = true) :
    (COMMS_ProcessJsonCommand msg fresh cs).2.length =
      (if (topic, action) ∈ COMMS_RoutedPairs then 1 else 0) := by
  obtain ⟨msgId, t, tp, a, data⟩ := msg
  simp only at ht hto ha
  subst ht hto ha
  simp only [COMMS_ProcessJsonCommand, hcmd, if_true]
  split_ifs with h1 h2 h3 h4 h5 h6 h7 h8 h9 h10 h11 h12 h13 <;>
    try (rcases data.id? with _ | v) <;>
    try (rcases data.lights_first? with _ | w) <;>
    simp_all [COMMS_RoutedPairs]

theorem C6_response_iff_recognized_witness :
    msgSystemPing.type? = some "cmd" ∧
    (COMMS_ProcessJsonCommand msgSystemPing readInRange initialCoordState).2.length =
      (if (("system", "ping") : String × String) ∈ COMMS_RoutedPairs then 1 else 0) :=
  ⟨rfl,
    C6_response_iff_recognized msgSystemPing readInRange initialCoordState
      "cmd" "system" "ping" rfl rfl rfl (by decide)⟩

/-- C7: across any sequence of consecutive refresh ticks in which a
channel's alarm goes None (byte 0, with the previous-alarm snapshot in
sync) to non-None and then stays non-None (staying is automatic: the alarm
evaluation only ever stores the nonzero `ERROR_OVER_CURRENT` /
`ERROR_OVER_TEMPERATURE` bytes and nothing in a run clears them), exactly
one `AlarmEvent` is emitted for that channel; every event a tick emits for
the channel carries the tick's fresh current reading when its kind is
`ERROR_OVER_CURRENT` and the fresh temperature reading when its kind is
`ERROR_OVER_TEMPERATURE`; and the previous-alarm snapshot is updated to
the synchronized alarm vector on every tick regardless of emission. -/
theorem C7_one_event_per_alarm_transition (reads : List (Nat → LightSensorData))
    (cs : CoordState) (c : Nat) (hc : c < 3)
    (h0 : cs.fw.light_alarms c = 0)
    (hp : cs.previous_light_alarms c = 0)
    (htrip : (SYS_Coordinator_Run reads cs).1.fw.light_alarms c ≠ 0) :
    ((SYS_Coordinator_Run reads cs).2.filter (fun e => e.lightId = c + 1)).length = 1 ∧
    (∀ (fresh : Nat → LightSensorData) (cs' : CoordState) (e : AlarmEvent),
      e ∈ (SYS_Coordinator_Tick fresh cs').2 → e.lightId = c + 1 →
      (e.errorType = ERROR_OVER_CURRENT → e.value = (fresh c).current) ∧
      (e.errorType = ERROR_OVER_TEMPERATURE → e.value = (fresh c).temperature)) ∧
    (∀ (fresh : Nat → LightSensorData) (cs' : CoordState),
      (SYS_Coordinator_Tick fresh cs').1.previous_light_alarms c =
        (SYS_Coordinator_Tick fresh cs').1.coord_alarms c) := by
  refine ⟨?_, ?_, ?_⟩
  · rw [run_count c hc reads cs (by rw [hp, h0])]
    rw [if_pos ⟨h0, htrip⟩]
  · intro fresh cs' e he hid
    have ht := tick_char fresh cs' c hc
    have hmem : e ∈ (SYS_Coordinator_Tick fresh cs').2.filter
        (fun e => e.lightId = c + 1) := by
      rw [List.mem_filter]
      exact ⟨he, by simp [hid]⟩
    rw [ht.2.2.2] at hmem
    by_cases hcond : (LED_Driver_CheckAlarmConditions
          { cs'.fw with light_sensor_data := fresh }).light_alarms c ≠ 0 ∧
        cs'.previous_light_alarms c = 0
    · rw [if_pos hcond] at hmem
      simp only [List.mem_singleton] at hmem
      subst hmem
      constructor
      · intro hoc
        simp only [ERROR_OVER_CURRENT] at hoc
        simp [hoc]
      · intro hot
        simp only [ERROR_OVER_TEMPERATURE] at hot
        simp [hot]
    · rw [if_neg hcond] at hmem
      simp at hmem
  · intro fresh cs'
    have ht := tick_char fresh cs' c hc
    rw [ht.2.2.1, ht.2.1]

theorem C7_one_event_per_alarm_transition_witness :
    initialCoordState.fw.light_alarms 0 = 0 ∧
    initialCoordState.previous_light_alarms 0 = 0 ∧
    (SYS_Coordinator_Run [readInRange, readHotCh1, readHotCh1]
        initialCoordState).1.fw.light_alarms 0 ≠ 0 ∧
    ((SYS_Coordinator_Run [readInRange, readHotCh1, readHotCh1]
        initialCoordState).2.filter (fun e => e.lightId = 0 + 1)).length = 1 :=
  ⟨by decide, by decide, by decide,
    (C7_one_event_per_alarm_transition [readInRange, readHotCh1, readHotCh1]
      initialCoordState 0 (by decide) (by decide) (by decide) (by decide)).1⟩

/-- C8 counterexample: `SYS_Coordinator_GetAllLightSensorData` answers the
all-sensors query from the coordinator's cached snapshot with no hardware
read: on the initial state it returns the cached 0 °C for channel 1 and
leaves every state component untouched, although a fresh hardware read
(`readHotCh1`, as `LED_Driver_GetAllSensorData` would deliver it) reads
90 °C. -/
theorem C8_get_all_sensor_data_is_cached :
    SYS_Coordinator_GetAllLightSensorData initialCoordState =
      (VAL_OK, initialCoordState.coord_sensor_data, initialCoordState) ∧
    ((SYS_Coordinator_GetAllLightSensorData initialCoordState).2.1 0).temperature = 0 ∧
    ((LED_Driver_GetAllSensorData readHotCh1 initialFirmwareState).2.1.map
        (fun d => (d 0).temperature)) = some 90 := by
  exact ⟨rfl, by decide, by decide⟩

/-- C8 amended: the single-channel query `get_sensor_data(id)` does
trigger a fresh hardware read before returning — for a valid id it
returns exactly the fresh values and `VAL_OK` (the analog layer always
succeeds for valid arguments, so there is no read-failure path) — but the
all-channels query `get_all_sensor_data` (as served to the command path by
`SYS_Coordinator_GetAllLightSensorData`) performs no hardware read at all:
it returns the coordinator's cached snapshot and `VAL_OK` unconditionally,
leaving all state unchanged. -/
theorem C8_fresh_single_read_cached_all (cs : CoordState) (id : Nat)
    (fresh : Nat → LightSensorData) (h1 : 1 ≤ id) (h2 : id ≤ 3) :
    (SYS_Coordinator_GetLightSensorData id fresh cs).1 = VAL_OK ∧
    (SYS_Coordinator_GetLightSensorData id fresh cs).2.1 = some (fresh (id - 1)) ∧
    SYS_Coordinator_GetAllLightSensorData cs = (VAL_OK, cs.coord_sensor_data, cs) := by
  have hg : ¬(id < 1 ∨ id > 3) := by omega
  have hv : LED_Driver_ValidateLightId id = VAL_OK := by
    simp only [LED_Driver_ValidateLightId, NUM_LIGHT_SOURCES]
    rw [if_neg hg]
  refine ⟨?_, ?_, rfl⟩ <;>
    simp [SYS_Coordinator_GetLightSensorData, LED_Driver_GetSensorData,
      LED_Driver_UpdateSensorReadings, VAL_Analog_GetAllSensorData, hv, hg,
      check_sensors] <;>
    rw [if_neg (show ¬(id = 0 ∨ 3 < id) by omega)]

theorem C8_fresh_single_read_cached_all_witness :
    1 ≤ 1 ∧ 1 ≤ 3 ∧
    ((SYS_Coordinator_GetLightSensorData 1 readHotCh1 initialCoordState).1 = VAL_OK ∧
     (SYS_Coordinator_GetLightSensorData 1 readHotCh1 initialCoordState).2.1 =
       some (readHotCh1 (1 - 1)) ∧
     SYS_Coordinator_GetAllLightSensorData initialCoordState =
       (VAL_OK, initialCoordState.coord_sensor_data, initialCoordState)) :=
  ⟨by decide, by decide,
    C8_fresh_single_read_cached_all initialCoordState 1 readHotCh1 (by decide) (by decide)⟩

theorem C10_pwm_clamps_over_100_witness :
    1 ≤ 1 ∧ 1 ≤ 3 ∧ 200 > 100 ∧
    VAL_PWM_SetIntensity 1 200 initialFirmwareState =
      (VAL_OK, { initialFirmwareState with
        pwmDuty := upd initialFirmwareState.pwmDuty 0 PWM_MAX_INTENSITY }) :=
  ⟨by decide, by decide, by decide,
    C10_pwm_clamps_over_100 1 200 initialFirmwareState (by decide) (by decide) (by decide)⟩
